import Mathlib

/-!
Verification development for the chess-tutor voice session manager
(`useGeminiLive` hook: PCMAudioPlayer, MicrophoneCapture, WebSocket
session state machine).  All definitions are shallow embeddings of the
TypeScript source; time is modelled with rationals, 16-bit samples with
integers, and JavaScript `||`-style field fallback with explicit
truthiness helpers.
-/

namespace ChessTutor

/-! ### Base64 decoding (model of JavaScript `atob`, forgiving-base64) -/

/-- Value of one base64 alphabet character, `none` for an invalid one. -/
def b64Val (c : Char) : Option Nat :=
  if 'A' ≤ c ∧ c ≤ 'Z' then some (c.toNat - 65)
  else if 'a' ≤ c ∧ c ≤ 'z' then some (c.toNat - 97 + 26)
  else if '0' ≤ c ∧ c ≤ '9' then some (c.toNat - 48 + 52)
  else if c = '+' then some 62
  else if c = '/' then some 63
  else none

/-- Decode a list of 6-bit values into bytes: groups of four values give
three bytes, a final group of two or three gives one or two bytes, and a
lone trailing value is an error (forgiving-base64). -/
def b64DecodeVals : List Nat → Option (List Nat)
  | [] => some []
  | [_] => none
  | [a, b] => some [a * 4 + b / 16]
  | [a, b, c] => some [a * 4 + b / 16, (b % 16) * 16 + c / 4]
  | a :: b :: c :: d :: rest =>
    (b64DecodeVals rest).map
      (fun bs =>
        (a * 4 + b / 16) :: ((b % 16) * 16 + c / 4) :: ((c % 4) * 64 + d) :: bs)

/-- Strip up to two trailing padding characters when the length is a
multiple of four (forgiving-base64 step 2). -/
def b64StripPad (cs : List Char) : List Char :=
  if cs.length % 4 = 0 then
    match cs.reverse with
    | '=' :: '=' :: rest => rest.reverse
    | '=' :: rest => rest.reverse
    | _ => cs
  else cs

/-- ASCII whitespace, removed before base64 decoding. -/
def isB64Ws (c : Char) : Bool :=
  c = ' ' ∨ c = '\t' ∨ c = '\n' ∨ c = '\x0c' ∨ c = '\r'

/-- Model of JavaScript `atob`: forgiving-base64 decode to a byte list,
`none` where the real `atob` throws. -/
def atobBytes (s : String) : Option (List Nat) :=
  let cs := b64StripPad (s.data.filter (fun c => ¬ isB64Ws c))
  if cs.length % 4 = 1 then none
  else match cs.mapM b64Val with
    | none => none
    | some vals => b64DecodeVals vals

/-! ### PCM decoding inside `PCMAudioPlayer.playPCM`

The try-block of `playPCM` decodes base64 to bytes, reinterprets the byte
buffer as an `Int16Array` (which throws when the byte count is odd), and
converts each 16-bit little-endian sample to a float by dividing by
32768.  Any failure is caught and leaves the player untouched. -/

/-- Pair a little-endian byte list into signed 16-bit integers; fails on
an odd byte count (as `new Int16Array(buffer)` throws then). -/
def bytesToInt16 : List Nat → Option (List Int)
  | [] => some []
  | [_] => none
  | lo :: hi :: rest =>
    (bytesToInt16 rest).map
      (fun xs =>
        (let u := lo + 256 * hi
         if u < 32768 then (u : Int) else (u : Int) - 65536) :: xs)

/-- The decode pipeline of `playPCM` up to the `Int16Array`: base64 →
bytes → 16-bit samples. -/
def pcmInt16 (base64Data : String) : Option (List Int) :=
  match atobBytes base64Data with
  | none => none
  | some bytes => bytesToInt16 bytes

/-! ### PCMAudioPlayer -/

/-- State of `PCMAudioPlayer`: whether an `AudioContext` exists, the
playback cursor `scheduledTime`, and the `isPlaying` flag.  The fixed
output `sampleRate` is 24000. -/
structure Player where
  hasContext : Bool
  scheduledTime : ℚ
  isPlaying : Bool
deriving DecidableEq, Repr

/-- Model of `PCMAudioPlayer.init()`: create the context, set the cursor to the
current time, mark playing. -/
def Player.initAt (now : ℚ) : Player :=
  { hasContext := true, scheduledTime := now, isPlaying := true }

/-- Model of `PCMAudioPlayer.playPCM(base64Data)`: no-op without a context or when
not playing; otherwise decode the chunk (failures caught, state
unchanged), schedule it at `max(scheduledTime, currentTime)` and advance
the cursor by the buffer duration `length / 24000`.  Returns the new
player state and the scheduled start time when a buffer was scheduled. -/
def Player.playPCM (now : ℚ) (base64Data : String) (p : Player) :
    Player × Option ℚ :=
  if ¬ p.hasContext ∨ ¬ p.isPlaying then (p, none)
  else
    match pcmInt16 base64Data with
    | none => (p, none)
    | some int16 =>
      let float32 := int16.map (fun v : Int => (v : ℚ) / 32768)
      let startTime := max p.scheduledTime now
      ({ p with scheduledTime := startTime + (float32.length : ℚ) / 24000 },
       some startTime)

/-- Model of `PCMAudioPlayer.stop()`: clear `isPlaying`; with a context, rebase the
cursor to the current time. -/
def Player.stopAt (now : ℚ) (p : Player) : Player :=
  if p.hasContext then { p with isPlaying := false, scheduledTime := now }
  else { p with isPlaying := false }

/-- Model of `PCMAudioPlayer.resume()`: with a context, rebase the cursor to the
current time and set `isPlaying`. -/
def Player.resumeAt (now : ℚ) (p : Player) : Player :=
  if p.hasContext then { p with scheduledTime := now, isPlaying := true }
  else p

/-- The hook's `interrupt()` on the player: `stop()` then `resume()`. -/
def Player.interruptAt (now : ℚ) (p : Player) : Player :=
  Player.resumeAt now (Player.stopAt now p)

/-! ### MicrophoneCapture.resample -/

/-- Truncation of a rational toward zero, as JavaScript does when storing
a number into an `Int16Array` (values here are always in range). -/
def truncToZero (q : ℚ) : Int :=
  Int.tdiv q.num (q.den : Int)

/-- Model of `MicrophoneCapture.resample(inputData, inputSampleRate)`: nearest
neighbor decimation to 16 kHz.  `ratio = inputSampleRate / 16000`, output
length `⌊length / ratio⌋`, sample `i` taken at index `⌊i * ratio⌋`,
clipped to [-1, 1] and scaled to the signed 16-bit range (negative by
0x8000, non-negative by 0x7FFF). -/
def resample (inputData : List ℚ) (inputSampleRate : Nat) : List Int :=
  let targetSampleRate : Nat := 16000
  let ratio : ℚ := (inputSampleRate : ℚ) / (targetSampleRate : ℚ)
  let outputLength : Nat := (⌊(inputData.length : ℚ) / ratio⌋).toNat
  (List.range outputLength).map (fun i : ℕ =>
    let srcIndex := (⌊(i : ℚ) * ratio⌋).toNat
    let s := max (-1 : ℚ) (min 1 (inputData.getD srcIndex 0))
    if s < 0 then truncToZero (s * 0x8000) else truncToZero (s * 0x7FFF))

/-! ### Inbound wire frames

A parsed inbound JSON frame, with both coexisting field-naming
conventions present as separate optional fields, exactly as the
`ws.onmessage` handler reads them.  JavaScript `||` fallback is modelled
by the `jsOr*` helpers below (`undefined` ↦ `none`; the empty string and
`false` are falsy, objects and arrays are truthy). -/

structure RawInline where
  mimeType : Option String
  mime_type : Option String
  data : Option String
deriving DecidableEq, Repr

structure RawPart where
  inlineData : Option RawInline
  inline_data : Option RawInline
  text : Option String
deriving DecidableEq, Repr

structure RawModelTurn where
  parts : Option (List RawPart)
deriving DecidableEq, Repr

structure RawServerContent where
  modelTurn : Option RawModelTurn
  model_turn : Option RawModelTurn
  turnComplete : Option Bool
  turn_complete : Option Bool
deriving DecidableEq, Repr

structure RawError where
  message : Option String
deriving DecidableEq, Repr

structure RawFrame where
  setupComplete : Option Unit
  setup_complete : Option Unit
  error : Option RawError
  serverContent : Option RawServerContent
  server_content : Option RawServerContent
deriving DecidableEq, Repr

/-- JavaScript `a || b` on object-valued fields: objects are truthy, `undefined` is
falsy. -/
def jsOrObj {α : Type} (a b : Option α) : Option α :=
  match a with
  | some x => some x
  | none => b

/-- JavaScript `a || b` on string-valued fields: the empty string is falsy. -/
def jsOrStr (a b : Option String) : Option String :=
  match a with
  | some s => if s = "" then b else some s
  | none => b

/-- Truthiness of `a || b` on boolean-valued fields. -/
def jsOrBoolTruthy (a b : Option Bool) : Bool :=
  a.getD false || b.getD false

/-- Truthiness of `s?.startsWith(p)` for an optional string. -/
def optStartsWith (s : Option String) (p : String) : Bool :=
  match s with
  | some s => s.startsWith p
  | none => false

/-! ### Session state -/

/-- WebSocket `readyState`. -/
inductive WsReady where
  | connecting
  | opened
  | closing
  | closed
deriving DecidableEq, Repr

/-- The chess context cache (`currentContextRef`). -/
structure Ctx where
  fen : String
  playerSide : String
  childName : String
deriving DecidableEq, Repr

/-- The full mutable state of one `useGeminiLive` session: the React
state flags, the `connectAttempts` ref, the WebSocket ref (with its ready
state), the audio player ref, the microphone ref, and the context ref. -/
structure Session where
  isConnected : Bool
  isConnecting : Bool
  isListening : Bool
  isSpeaking : Bool
  lastTranscript : String
  error : Option String
  fatalError : Bool
  connectAttempts : Nat
  ws : Option WsReady
  player : Option Player
  mic : Bool
  context : Option Ctx
deriving DecidableEq, Repr

/-- The initial hook state: all flags false, empty transcript, no error,
attempt counter 0, no refs set. -/
def initSession : Session :=
  { isConnected := false, isConnecting := false, isListening := false,
    isSpeaking := false, lastTranscript := "", error := none,
    fatalError := false, connectAttempts := 0, ws := none, player := none,
    mic := false, context := none }

/-- Close codes classified as fatal (`FATAL_CLOSE_CODES`). -/
def FATAL_CLOSE_CODES : List Nat :=
  [1002, 1003, 1007, 1008, 1009, 1010, 1011, 1015,
   4000, 4001, 4002, 4003, 4004, 4005]

/-- The `ws.onclose` classification: a listed code or any code ≥ 4000. -/
def isFatalCloseCode (code : Nat) : Bool :=
  FATAL_CLOSE_CODES.contains code || decide (4000 ≤ code)

/-! ### Session operations -/

/-- Model of `fullCleanup()`: stop and drop the microphone, stop the audio player
(the ref itself is kept), close and drop the WebSocket, and reset the
four transient flags.  `error`, `fatalError` and `connectAttempts` are
untouched. -/
def fullCleanup (now : ℚ) (s : Session) : Session :=
  { s with mic := false,
           player := s.player.map (Player.stopAt now),
           ws := none,
           isConnected := false, isConnecting := false,
           isListening := false, isSpeaking := false }

/-- Synchronous outcome of a `connect()` call. -/
inductive ConnectResult where
  | blockedFatal
  | blockedBusy
  | capExceeded
  | proceed
deriving DecidableEq, Repr

/-- Holds exactly when the call reached the point of creating a
WebSocket transport. -/
def ConnectResult.opensTransport : ConnectResult → Bool
  | .proceed => true
  | _ => false

/-- Holds when the call returned `false` synchronously, before any
transport work. -/
def ConnectResult.immediateFailure : ConnectResult → Bool
  | .proceed => false
  | _ => true

/-- The synchronous prefix of `connect()`: refuse when `fatalError` is
set; refuse when already connected or connecting; increment the attempt
counter and, past the cap of 5, set `fatalError` and fail; otherwise set
`isConnecting`, clear `error`, create and init the audio player, and
create the WebSocket (ready state CONNECTING). -/
def connect (now : ℚ) (s : Session) : Session × ConnectResult :=
  if s.fatalError then (s, .blockedFatal)
  else if s.isConnected || s.isConnecting then (s, .blockedBusy)
  else
    let attempts := s.connectAttempts + 1
    if 5 < attempts then
      ({ s with connectAttempts := attempts, fatalError := true,
                error := some "Too many connection attempts" },
       .capExceeded)
    else
      ({ s with connectAttempts := attempts, isConnecting := true,
                error := none,
                player := some (Player.initAt now),
                ws := some .connecting },
       .proceed)

/-- Outbound frames, as sent over the transport. -/
inductive OutMsg where
  | setupFrame
  | clientContent (prompt : String) (turnComplete : Bool)
  | realtimeInput (mimeType : String) (data : String)
deriving DecidableEq, Repr

/-- Model of `ws.onopen`: the socket becomes OPEN and the setup frame is sent. -/
def onOpen (s : Session) : Session × List OutMsg :=
  match s.ws with
  | some _ => ({ s with ws := some .opened }, [OutMsg.setupFrame])
  | none => (s, [])

/-- One pass of the `for (const part of parts)` loop body in
`ws.onmessage`: resolve `inlineData`/`inline_data` and
`mimeType`/`mime_type`, play audio parts (recording the chunk handed to
`playPCM`), and surface text parts as the transcript. -/
def processPart (now : ℚ) (acc : Session × List (Option String))
    (p : RawPart) : Session × List (Option String) :=
  let s := acc.1
  let played := acc.2
  let inline := jsOrObj p.inlineData p.inline_data
  let mime := jsOrStr (inline.bind (·.mimeType)) (inline.bind (·.mime_type))
  let res :=
    if optStartsWith mime "audio/pcm" then
      let d := inline.bind (·.data)
      let s := { s with isSpeaking := true }
      match s.player with
      | none => (s, played)
      | some pl =>
        ({ s with player := some (Player.playPCM now (d.getD "undefined") pl).1 },
         played ++ [d])
    else (s, played)
  match p.text with
  | some t => if t = "" then res else ({ res.1 with lastTranscript := t }, res.2)
  | none => res

/-- Model of `ws.onmessage` on a parsed frame: a setup-complete frame resets the
attempt counter and marks the session connected; an error frame records
the message, sets `fatalError` and runs `fullCleanup`; otherwise server
content (in either naming convention) is walked part by part and a final
truthy turn-complete clears `isSpeaking`.  Returns the session and the
chunks handed to playback. -/
def onMessage (now : ℚ) (s : Session) (f : RawFrame) :
    Session × List (Option String) :=
  if f.setupComplete.isSome || f.setup_complete.isSome then
    ({ s with connectAttempts := 0, isConnected := true,
              isConnecting := false }, [])
  else
    match f.error with
    | some e =>
      let msg := match e.message with
        | some m => if m = "" then "Server error" else m
        | none => "Server error"
      (fullCleanup now { s with error := some msg, fatalError := true }, [])
    | none =>
      match jsOrObj f.serverContent f.server_content with
      | none => (s, [])
      | some sc =>
        let mt := jsOrObj sc.modelTurn sc.model_turn
        let parts := (mt.bind (·.parts)).getD []
        let res := parts.foldl (processPart now) (s, [])
        let tc := jsOrBoolTruthy sc.turnComplete sc.turn_complete
        (if tc then { res.1 with isSpeaking := false } else res.1, res.2)

/-- Model of `ws.onerror`: record a generic error and clear `isConnecting`. -/
def onError (s : Session) : Session :=
  { s with error := some "Connection error", isConnecting := false }

/-- Model of `ws.onclose(event)`: a fatal-listed code (or any code ≥ 4000) sets
`fatalError` and an error message; in every case `fullCleanup` runs. -/
def onClose (now : ℚ) (code : Nat) (s : Session) : Session :=
  let s :=
    if isFatalCloseCode code then
      { s with fatalError := true,
               error := some "Fatal close code" }
    else s
  fullCleanup now s

/-- The 10-second connection timeout: close the socket, record the
timeout error, clear `isConnecting`. -/
def onTimeout (s : Session) : Session :=
  { s with ws := s.ws.map (fun _ => WsReady.closing),
           error := some "Connection timeout", isConnecting := false }

/-- Model of `sendChessContext`: a pure write to the context ref. -/
def sendChessContext (fen playerSide childName : String) (s : Session) :
    Session :=
  { s with context := some { fen := fen, playerSide := playerSide,
                             childName := childName } }

/-- The five game events `sendGameEvent` accepts. -/
inductive GameEvent where
  | game_start
  | child_move
  | ai_move
  | check
  | game_end
deriving DecidableEq, Repr

/-- Model of JavaScript `Number.toFixed(1)`: round to one decimal digit,
ties toward positive infinity, rendered as `intPart.tenths`. -/
def toFixed1 (q : ℚ) : String :=
  let n : Int := ⌊q * 10 + 1 / 2⌋
  let sgn := if n < 0 then "-" else ""
  sgn ++ toString (n.natAbs / 10) ++ "." ++ toString (n.natAbs % 10)

/-- The per-event prompt templates of `sendGameEvent`.  `childName`
falls back to the default pupil name when absent or empty, the side
comparison treats a missing context as not-white, and an absent move
interpolates as the string rendering of `undefined`. -/
def buildPrompt (e : GameEvent) (mv : Option String) (ev : Option ℚ)
    (ctx : Option Ctx) : String :=
  let name :=
    match ctx with
    | some c => if c.childName = "" then "Ученик" else c.childName
    | none => "Ученик"
  let sideWhite :=
    match ctx with
    | some c => c.playerSide == "white"
    | none => false
  match e with
  | .game_start =>
    name ++ " начинает игру " ++ (if sideWhite then "белыми" else "чёрными")
      ++ ". Поприветствуй и пожелай удачи!"
  | .child_move =>
    let evalPart :=
      match ev with
      | some v => "Оценка: " ++ (if 0 < v then "+" else "") ++ toFixed1 v
      | none => ""
    name ++ " сделал ход " ++ mv.getD "undefined" ++ ". " ++ evalPart
      ++ " Прокомментируй ход кратко."
  | .ai_move =>
    "Компьютер сделал ход " ++ mv.getD "undefined"
      ++ ". Кратко объясни этот ход."
  | .check => "Шах! Объясни, что делать при шахе."
  | .game_end => "Игра завершена. Подведи итог и похвали за игру."

/-- Model of `sendGameEvent(event, move?, evaluation?)`: return silently (no
frame, no state change, nothing queued) unless the WebSocket ref exists
with readyState OPEN; otherwise send one turn-complete client-content
frame built from the event and the current context snapshot. -/
def sendGameEvent (e : GameEvent) (mv : Option String) (ev : Option ℚ)
    (s : Session) : Session × List OutMsg :=
  match s.ws with
  | some .opened =>
    (s, [OutMsg.clientContent (buildPrompt e mv ev s.context) true])
  | _ => (s, [])

/-- The microphone `onaudioprocess` callback forwarding one captured
chunk: sends a realtime-input frame only when the socket is OPEN; the
session state is never touched. -/
def micChunk (base64Audio : String) (s : Session) : Session × List OutMsg :=
  match s.ws with
  | some .opened =>
    (s, [OutMsg.realtimeInput "audio/pcm;rate=16000" base64Audio])
  | _ => (s, [])

/-- The hook's `interrupt()`: on the audio player, `stop()` then
`resume()`; clear `isSpeaking`. -/
def interrupt (now : ℚ) (s : Session) : Session :=
  { s with player := s.player.map (Player.interruptAt now),
           isSpeaking := false }

/-- Model of `startListening()`: refuse unless connected and not yet listening;
create the microphone and start it (outcome `micOk` is the external
hardware result); on success set `isListening` and run `interrupt`. -/
def startListening (now : ℚ) (micOk : Bool) (s : Session) :
    Session × Bool :=
  if ¬ s.isConnected ∨ s.isListening then (s, false)
  else
    let s := { s with mic := true }
    if micOk then (interrupt now { s with isListening := true }, true)
    else (s, false)

/-- Model of `stopListening()`: stop and drop the microphone, clear
`isListening`. -/
def stopListening (s : Session) : Session :=
  { s with mic := false, isListening := false }

/-- The model of `disconnect()` is exactly `fullCleanup`. -/
def disconnect (now : ℚ) (s : Session) : Session :=
  fullCleanup now s

/-! ### Every in-Session operation, as one step relation -/

/-- The operations and asynchronous events that can act on a live
session: the seven exposed actions, the WebSocket handlers (open,
parsed message, malformed message, error, close), the connect timeout,
and a forwarded microphone chunk. -/
inductive Op where
  | connectOp
  | disconnectOp
  | pushContext (fen side name : String)
  | sendEvent (e : GameEvent) (mv : Option String) (ev : Option ℚ)
  | startListen (micOk : Bool)
  | stopListen
  | interruptOp
  | micData (base64 : String)
  | wsOnOpen
  | wsOnMessage (f : RawFrame)
  | wsOnMessageMalformed
  | wsOnError
  | wsOnClose (code : Nat)
  | connectTimeout

/-- The state transition of each operation (outbound frames and return
values dropped).  A malformed inbound frame is caught by the handler's
try/catch and changes nothing. -/
def step (now : ℚ) (s : Session) : Op → Session
  | .connectOp => (connect now s).1
  | .disconnectOp => disconnect now s
  | .pushContext fen side name => sendChessContext fen side name s
  | .sendEvent e mv ev => (sendGameEvent e mv ev s).1
  | .startListen micOk => (startListening now micOk s).1
  | .stopListen => stopListening s
  | .interruptOp => interrupt now s
  | .micData b => (micChunk b s).1
  | .wsOnOpen => (onOpen s).1
  | .wsOnMessage f => (onMessage now s f).1
  | .wsOnMessageMalformed => s
  | .wsOnError => onError s
  | .wsOnClose code => onClose now code s
  | .connectTimeout => onTimeout s

/-- One failed connect attempt: the call proceeds to open a transport
and the socket then closes abnormally (code 1006) before any handshake
acknowledgment, so cleanup runs and the attempt counter is retained. -/
def failedConnect (now : ℚ) (s : Session) : Session :=
  onClose now 1006 (connect now s).1

/-! ### Canonical (logical) frame content and the two wire spellings

A logical inbound frame carries each field exactly once; `encodeCamel`
and `encodeSnake` spell the same content in the camelCase and the
snake_case convention respectively. -/

structure LInline where
  mime : Option String
  data : Option String
deriving DecidableEq, Repr

structure LPart where
  inline : Option LInline
  text : Option String
deriving DecidableEq, Repr

structure LModelTurn where
  parts : Option (List LPart)
deriving DecidableEq, Repr

structure LContent where
  modelTurn : Option LModelTurn
  turnComplete : Option Bool
deriving DecidableEq, Repr

structure LFrame where
  setupComplete : Option Unit
  error : Option RawError
  serverContent : Option LContent
deriving DecidableEq, Repr

def encCamelInline (i : LInline) : RawInline :=
  { mimeType := i.mime, mime_type := none, data := i.data }

def encSnakeInline (i : LInline) : RawInline :=
  { mimeType := none, mime_type := i.mime, data := i.data }

def encCamelPart (p : LPart) : RawPart :=
  { inlineData := p.inline.map encCamelInline, inline_data := none,
    text := p.text }

def encSnakePart (p : LPart) : RawPart :=
  { inlineData := none, inline_data := p.inline.map encSnakeInline,
    text := p.text }

def encCamelMT (m : LModelTurn) : RawModelTurn :=
  { parts := m.parts.map (List.map encCamelPart) }

def encSnakeMT (m : LModelTurn) : RawModelTurn :=
  { parts := m.parts.map (List.map encSnakePart) }

def encCamelSC (c : LContent) : RawServerContent :=
  { modelTurn := c.modelTurn.map encCamelMT, model_turn := none,
    turnComplete := c.turnComplete, turn_complete := none }

def encSnakeSC (c : LContent) : RawServerContent :=
  { modelTurn := none, model_turn := c.modelTurn.map encSnakeMT,
    turnComplete := none, turn_complete := c.turnComplete }

/-- The camelCase spelling of a logical frame. -/
def encodeCamel (f : LFrame) : RawFrame :=
  { setupComplete := f.setupComplete, setup_complete := none,
    error := f.error,
    serverContent := f.serverContent.map encCamelSC,
    server_content := none }

/-- The snake_case spelling of a logical frame. -/
def encodeSnake (f : LFrame) : RawFrame :=
  { setupComplete := none, setup_complete := f.setupComplete,
    error := f.error,
    serverContent := none,
    server_content := f.serverContent.map encSnakeSC }

/-- A frame is a handshake acknowledgment when either spelling of the
setup-complete field is present. -/
def hasSetupAck (f : RawFrame) : Bool :=
  f.setupComplete.isSome || f.setup_complete.isSome

/-- Whether an operation is the receipt of a handshake acknowledgment. -/
def Op.isSetupAck : Op → Bool
  | .wsOnMessage f => hasSetupAck f
  | _ => false

/-! ## Theorems -/

/-- C1: after 5 consecutive failed `connect()` calls with no intervening
handshake success (each opened a transport and then saw an abnormal 1006
close, leaving the attempt counter at 5), a 6th `connect()` call fails
immediately, creates no WebSocket (the transport ref stays empty), and
leaves the session with the fatal flag set. -/
theorem C1_sixth_connect_fatal :
    (((failedConnect 0)^[5] initSession).connectAttempts = 5 ∧
     ((failedConnect 0)^[5] initSession).fatalError = false) ∧
    (connect 0 ((failedConnect 0)^[5] initSession)).2.immediateFailure = true ∧
    (connect 0 ((failedConnect 0)^[5] initSession)).2.opensTransport = false ∧
    (connect 0 ((failedConnect 0)^[5] initSession)).1.fatalError = true ∧
    (connect 0 ((failedConnect 0)^[5] initSession)).1.ws = none := by
  decide

/-- C10: when decoding inside `playPCM` fails (invalid base64, or a byte
count that is not a whole number of 16-bit samples), the call returns
normally with the player state — in particular the `scheduledTime`
cursor — completely unchanged, and schedules nothing. -/
theorem C10_bad_chunk_no_effect (now : ℚ) (c : String) (p : Player)
    (hbad : pcmInt16 c = none) :
    Player.playPCM now c p = (p, none) := by
  unfold Player.playPCM
  split
  · rfl
  · rw [hbad]

/-- C10 witness: the chunk "!!!!" is not valid base64; played into a
live player with a non-trivial cursor, nothing changes. -/
theorem C10_bad_chunk_no_effect_witness :
    pcmInt16 "!!!!" = none ∧
    Player.playPCM 0 "!!!!"
        { hasContext := true, scheduledTime := 7, isPlaying := true } =
      ({ hasContext := true, scheduledTime := 7, isPlaying := true }, none) :=
  ⟨by decide,
   C10_bad_chunk_no_effect 0 "!!!!"
     { hasContext := true, scheduledTime := 7, isPlaying := true } (by decide)⟩

/-- C8: after `interrupt()` (playback `stop()` followed by `resume()`)
at time `now`, the next `playChunk` call at the current time `now2`
schedules its buffer to start exactly at `now2`, regardless of the
pre-interrupt cursor value of the player. -/
theorem C8_interrupt_rebases (now now2 : ℚ) (p : Player) (c : String)
    (l : List Int) (hc : p.hasContext = true) (hmono : now ≤ now2)
    (hdec : pcmInt16 c = some l) :
    (Player.playPCM now2 c (Player.interruptAt now p)).2 = some now2 := by
  unfold Player.interruptAt Player.stopAt Player.resumeAt Player.playPCM
  simp only [hc, if_true, if_pos]
  simp only [not_true, or_self, if_false, hdec]
  simp [max_eq_right hmono]

/-- C8 witness: a player with a large scheduled backlog (cursor 1000) is
interrupted at time 2; the next chunk starts at the current time 3, not
at 1000. -/
theorem C8_interrupt_rebases_witness :
    (2 : ℚ) ≤ 3 ∧ pcmInt16 "AAA=" = some [0] ∧
    (Player.playPCM 3 "AAA="
        (Player.interruptAt 2
          { hasContext := true, scheduledTime := 1000, isPlaying := true })).2 =
      some 3 :=
  ⟨by norm_num, by decide,
   C8_interrupt_rebases 2 3
     { hasContext := true, scheduledTime := 1000, isPlaying := true }
     "AAA=" [0] rfl (by norm_num) (by decide)⟩

/-- C7: three chunks of durations `d1, d2, d3` submitted back-to-back
with no time elapsing and the cursor at or ahead of now are scheduled
gaplessly at `t0`, `t0 + d1`, `t0 + d1 + d2`, where `t0` is the cursor
at the first call (so the scheduled intervals abut and do not
overlap). -/
theorem C7_gapless_scheduling (now t0 : ℚ) (p : Player)
    (c1 c2 c3 : String) (l1 l2 l3 : List Int)
    (hc : p.hasContext = true) (hp : p.isPlaying = true)
    (ht : p.scheduledTime = t0) (hn : now ≤ t0)
    (h1 : pcmInt16 c1 = some l1) (h2 : pcmInt16 c2 = some l2)
    (h3 : pcmInt16 c3 = some l3) :
    (Player.playPCM now c1 p).2 = some t0 ∧
    (Player.playPCM now c2 (Player.playPCM now c1 p).1).2 =
      some (t0 + (l1.length : ℚ) / 24000) ∧
    (Player.playPCM now c3
        (Player.playPCM now c2 (Player.playPCM now c1 p).1).1).2 =
      some (t0 + (l1.length : ℚ) / 24000 + (l2.length : ℚ) / 24000) := by
  have hd1 : (0 : ℚ) ≤ (l1.length : ℚ) / 24000 := by positivity
  have hd2 : (0 : ℚ) ≤ (l2.length : ℚ) / 24000 := by positivity
  unfold Player.playPCM
  simp only [hc, hp, ht, h1, h2, h3, not_true, or_self, if_false,
    List.length_map]
  constructor
  · rw [max_eq_left hn]
  constructor
  · rw [max_eq_left hn, max_eq_left (le_trans hn (le_add_of_nonneg_right hd1))]
  · rw [max_eq_left hn, max_eq_left (le_trans hn (le_add_of_nonneg_right hd1)),
        max_eq_left (le_trans (le_trans hn (le_add_of_nonneg_right hd1))
          (le_add_of_nonneg_right hd2))]

/-- C7 witness: chunks of 1, 2 and 1 samples at 24 kHz submitted at time
0 to a fresh player are scheduled at 0, 1/24000 and 3/24000. -/
theorem C7_gapless_scheduling_witness :
    (Player.playPCM 0 "AAA="
        { hasContext := true, scheduledTime := 0, isPlaying := true }).2 =
      some 0 ∧
    (Player.playPCM 0 "AAAAAA=="
        (Player.playPCM 0 "AAA="
          { hasContext := true, scheduledTime := 0, isPlaying := true }).1).2 =
      some (1 / 24000) ∧
    (Player.playPCM 0 "AAA="
        (Player.playPCM 0 "AAAAAA=="
          (Player.playPCM 0 "AAA="
            { hasContext := true, scheduledTime := 0,
              isPlaying := true }).1).1).2 =
      some (3 / 24000) := by
  have h := C7_gapless_scheduling 0 0
    { hasContext := true, scheduledTime := 0, isPlaying := true }
    "AAA=" "AAAAAA==" "AAA=" [0] [0, 0] [0]
    rfl rfl rfl (le_refl 0) (by decide) (by decide) (by decide)
  refine ⟨h.1, ?_, ?_⟩
  · have := h.2.1
    norm_num at this ⊢
    exact this
  · have := h.2.2
    norm_num at this ⊢
    exact this

/-! Helper lemmas: the part-processing loop of `ws.onmessage` only ever
touches `isSpeaking`, `player` and `lastTranscript`. -/

theorem processPart_preserved (now : ℚ) (acc : Session × List (Option String))
    (p : RawPart) :
    (processPart now acc p).1.fatalError = acc.1.fatalError ∧
    (processPart now acc p).1.connectAttempts = acc.1.connectAttempts := by
  unfold processPart
  dsimp only
  repeat' split
  all_goals exact ⟨rfl, rfl⟩

theorem foldl_processPart_preserved (now : ℚ) (l : List RawPart)
    (acc : Session × List (Option String)) :
    (l.foldl (processPart now) acc).1.fatalError = acc.1.fatalError ∧
    (l.foldl (processPart now) acc).1.connectAttempts =
      acc.1.connectAttempts := by
  induction l generalizing acc with
  | nil => exact ⟨rfl, rfl⟩
  | cons p l ih =>
    rw [List.foldl_cons]
    refine ⟨(ih (processPart now acc p)).1.trans ?_,
            (ih (processPart now acc p)).2.trans ?_⟩
    · exact (processPart_preserved now acc p).1
    · exact (processPart_preserved now acc p).2

theorem onMessage_fatalError_mono (now : ℚ) (s : Session) (f : RawFrame)
    (h : s.fatalError = true) : (onMessage now s f).1.fatalError = true := by
  unfold onMessage
  split
  · exact h
  · split
    · rfl
    · split
      · exact h
      · dsimp only
        split
        · exact (foldl_processPart_preserved now _ (s, [])).1.trans h
        · exact (foldl_processPart_preserved now _ (s, [])).1.trans h

theorem onMessage_connectAttempts (now : ℚ) (s : Session) (f : RawFrame)
    (h : hasSetupAck f = false) :
    (onMessage now s f).1.connectAttempts = s.connectAttempts := by
  unfold hasSetupAck at h
  unfold onMessage
  rw [h]
  simp only [Bool.false_eq_true, if_false]
  split
  · rfl
  · split
    · rfl
    · dsimp only
      split
      · exact (foldl_processPart_preserved now _ (s, [])).2
      · exact (foldl_processPart_preserved now _ (s, [])).2

/-- C3: across every in-Session operation and handler event, once the
fatal flag is set it is never cleared; and `connect()` called with the
fatal flag set refuses immediately, leaving the session untouched. -/
theorem C3_fatal_monotone :
    (∀ (now : ℚ) (s : Session) (op : Op),
        s.fatalError = true → (step now s op).fatalError = true) ∧
    (∀ (now : ℚ) (s : Session), s.fatalError = true →
        (connect now s).2 = ConnectResult.blockedFatal ∧
        (connect now s).1 = s) := by
  constructor
  · intro now s op h
    cases op with
    | connectOp => simp [step, connect, h]
    | disconnectOp => exact h
    | pushContext fen side name => exact h
    | sendEvent e mv ev =>
      simp only [step]
      unfold sendGameEvent
      split <;> exact h
    | startListen micOk =>
      simp only [step]
      unfold startListening interrupt
      repeat' split
      all_goals exact h
    | stopListen => exact h
    | interruptOp => exact h
    | micData b =>
      simp only [step]
      unfold micChunk
      split <;> exact h
    | wsOnOpen =>
      simp only [step]
      unfold onOpen
      split <;> exact h
    | wsOnMessage f => exact onMessage_fatalError_mono now s f h
    | wsOnMessageMalformed => exact h
    | wsOnError => exact h
    | wsOnClose code =>
      simp only [step]
      unfold onClose fullCleanup
      split <;> [rfl; exact h]
    | connectTimeout => exact h
  · intro now s h
    unfold connect
    rw [if_pos h]
    exact ⟨rfl, rfl⟩

/-- C3 witness: with the fatal flag set, `disconnect` leaves it set and
`connect` is refused with the state unchanged. -/
theorem C3_fatal_monotone_witness :
    (step 0 { initSession with fatalError := true } Op.disconnectOp).fatalError
      = true ∧
    (connect 0 { initSession with fatalError := true }).2 =
      ConnectResult.blockedFatal :=
  ⟨C3_fatal_monotone.1 0 { initSession with fatalError := true }
     Op.disconnectOp rfl,
   (C3_fatal_monotone.2 0 { initSession with fatalError := true } rfl).1⟩

/-- C2: a handshake acknowledgment (a frame carrying either spelling of
the setup-complete field) always resets the attempt counter to 0,
whatever its prior value; and no other operation or event ever brings
the counter to 0 unless it already was 0. -/
theorem C2_attempt_counter_reset :
    (∀ (now : ℚ) (s : Session) (f : RawFrame),
        hasSetupAck f = true → (onMessage now s f).1.connectAttempts = 0) ∧
    (∀ (now : ℚ) (s : Session) (op : Op), op.isSetupAck = false →
        (step now s op).connectAttempts = 0 → s.connectAttempts = 0) := by
  constructor
  · intro now s f h
    unfold hasSetupAck at h
    unfold onMessage
    rw [h]
    rfl
  · intro now s op hop h
    cases op with
    | connectOp =>
      simp only [step, connect] at h
      split at h
      · exact h
      · split at h
        · exact h
        · split at h <;> exact absurd h (Nat.succ_ne_zero _)
    | disconnectOp => exact h
    | pushContext fen side name => exact h
    | sendEvent e mv ev =>
      simp only [step, sendGameEvent] at h
      split at h <;> exact h
    | startListen micOk =>
      simp only [step, startListening, interrupt] at h
      split at h
      · exact h
      · split at h <;> exact h
    | stopListen => exact h
    | interruptOp => exact h
    | micData b =>
      simp only [step, micChunk] at h
      split at h <;> exact h
    | wsOnOpen =>
      simp only [step, onOpen] at h
      split at h <;> exact h
    | wsOnMessage f =>
      have hp : hasSetupAck f = false := hop
      simp only [step] at h
      rw [onMessage_connectAttempts now s f hp] at h
      exact h
    | wsOnMessageMalformed => exact h
    | wsOnError => exact h
    | wsOnClose code =>
      simp only [step, onClose, fullCleanup] at h
      split at h <;> exact h
    | connectTimeout => exact h

/-- C2 witness: a setup-complete frame received with the counter at 4
resets it to 0; and a `disconnect` that results in counter 0 started
from counter 0. -/
theorem C2_attempt_counter_reset_witness :
    (onMessage 0 { initSession with connectAttempts := 4 }
        { setupComplete := some (), setup_complete := none, error := none,
          serverContent := none, server_content := none }).1.connectAttempts
      = 0 ∧
    initSession.connectAttempts = 0 :=
  ⟨C2_attempt_counter_reset.1 0 { initSession with connectAttempts := 4 }
     { setupComplete := some (), setup_complete := none, error := none,
       serverContent := none, server_content := none } rfl,
   C2_attempt_counter_reset.2 0 initSession Op.disconnectOp rfl rfl⟩

/-- C4: a close event whose code is in the fatal set (the eight listed
protocol codes, or any code ≥ 4000) sets the fatal flag; a close event
with any other code — including abnormal closure 1006 — leaves the fatal
flag as it was (so false stays false) and clears `isConnecting`, cleanup
running in both cases. -/
theorem C4_close_code_classification (now : ℚ) (s : Session) (code : Nat) :
    ((code ∈ [1002, 1003, 1007, 1008, 1009, 1010, 1011, 1015] ∨
        4000 ≤ code) →
      (onClose now code s).fatalError = true) ∧
    (¬(code ∈ [1002, 1003, 1007, 1008, 1009, 1010, 1011, 1015] ∨
        4000 ≤ code) →
      (onClose now code s).fatalError = s.fatalError ∧
      (onClose now code s).isConnecting = false) := by
  have hiff : isFatalCloseCode code = true ↔
      (code ∈ [1002, 1003, 1007, 1008, 1009, 1010, 1011, 1015] ∨
        4000 ≤ code) := by
    simp only [isFatalCloseCode, FATAL_CLOSE_CODES, Bool.or_eq_true,
      decide_eq_true_eq, List.contains_cons, List.contains_nil,
      beq_iff_eq, List.mem_cons, List.not_mem_nil, Bool.false_eq_true,
      or_false]
    omega
  constructor
  · intro h
    unfold onClose fullCleanup
    rw [if_pos (hiff.mpr h)]
  · intro h
    unfold onClose fullCleanup
    rw [if_neg (fun hh => h (hiff.mp hh))]
    exact ⟨rfl, rfl⟩

/-- C4 witness: code 1002 (protocol error) is fatal; code 1006
(abnormal closure) keeps the fatal flag false and clears
`isConnecting`, evaluated here on a session that was connecting. -/
theorem C4_close_code_classification_witness :
    (onClose 0 1002 { initSession with isConnecting := true }).fatalError
      = true ∧
    (onClose 0 1006 { initSession with isConnecting := true }).fatalError
      = false ∧
    (onClose 0 1006 { initSession with isConnecting := true }).isConnecting
      = false := by
  refine ⟨(C4_close_code_classification 0
      { initSession with isConnecting := true } 1002).1 (by decide), ?_, ?_⟩
  · exact ((C4_close_code_classification 0
      { initSession with isConnecting := true } 1006).2 (by decide)).1
  · exact ((C4_close_code_classification 0
      { initSession with isConnecting := true } 1006).2 (by decide)).2

/-- C5 counterexample: the claim fails on the code.  Starting from the
initial session, `connect()` proceeds and the socket's `onopen` fires;
at that point the session is **not** Active (`isConnected = false`,
the handshake acknowledgment has not arrived), yet `sendGameEvent`
transmits an outbound frame, because the code gates on
`readyState === OPEN`, not on the Active state. -/
theorem C5_inactive_send_counterexample :
    (onOpen (connect 0 initSession).1).1.isConnected = false ∧
    (sendGameEvent GameEvent.check none none
        (onOpen (connect 0 initSession).1).1).2 ≠ [] := by
  refine ⟨rfl, ?_⟩
  decide

/-- C5 as amended: `sendGameEvent` called while the transport is not
open (no WebSocket ref, or its readyState is not OPEN) sends no frame
and leaves the session unchanged — the event is dropped, never queued.
(The code's gate is socket openness, not the Active handshake state, so
an event sent in the window between `onopen` and the setup
acknowledgment is transmitted even though the session is not Active.) -/
theorem C5_send_requires_open_socket (e : GameEvent) (mv : Option String)
    (ev : Option ℚ) (s : Session) (h : s.ws ≠ some WsReady.opened) :
    (sendGameEvent e mv ev s).2 = [] ∧ (sendGameEvent e mv ev s).1 = s := by
  unfold sendGameEvent
  split
  · next heq => exact absurd heq h
  · exact ⟨rfl, rfl⟩

/-- C5 witness: on the initial session (no socket at all) an event send
produces no frame and no state change. -/
theorem C5_send_requires_open_socket_witness :
    (sendGameEvent GameEvent.check none none initSession).2 = [] ∧
    (sendGameEvent GameEvent.check none none initSession).1 = initSession :=
  C5_send_requires_open_socket GameEvent.check none none initSession
    (by decide)

/-- C9: resampling an input buffer of length `L` from 48000 Hz to the
fixed 16000 Hz target yields exactly `⌊L / 3⌋` samples, sample `i` being
the input at index `⌊i * 3⌋ = 3 i`, clipped to `[-1, 1]` and scaled to
the signed 16-bit range (negative values by 32768, non-negative by
32767). -/
theorem C9_resample_48k_length_and_values (l : List ℚ) :
    resample l 48000 =
      (List.range (l.length / 3)).map (fun i =>
        let s := max (-1 : ℚ) (min 1 (l.getD (3 * i) 0))
        if s < 0 then truncToZero (s * 32768) else truncToZero (s * 32767))
    := by
  have h3 : ((48000 : ℕ) : ℚ) / ((16000 : ℕ) : ℚ) = 3 := by norm_num
  have hlen : (⌊(l.length : ℚ) / (3 : ℚ)⌋).toNat = l.length / 3 := by
    rw [show ((3 : ℚ)) = ((3 : ℕ) : ℚ) by norm_num, Int.floor_toNat,
      Nat.floor_div_nat, Nat.floor_natCast]
  have hidx : ∀ i : ℕ, (⌊(i : ℚ) * (3 : ℚ)⌋).toNat = 3 * i := by
    intro i
    rw [show ((i : ℚ) * 3) = ((3 * i : ℕ) : ℚ) by push_cast; ring,
      Int.floor_natCast, Int.toNat_natCast]
  simp only [resample, h3, hlen, hidx]

/-! Helper lemmas for the dual-convention decode claim. -/

theorem processPart_enc (now : ℚ) (acc : Session × List (Option String))
    (p : LPart) :
    processPart now acc (encCamelPart p) =
      processPart now acc (encSnakePart p) := by
  rcases p with ⟨inl, txt⟩
  rcases inl with _ | ⟨mime, dat⟩
  · rfl
  · rcases mime with _ | m
    · rfl
    · by_cases hm : m = ""
      · subst hm; rfl
      · simp [processPart, encCamelPart, encSnakePart, encCamelInline,
          encSnakeInline, jsOrObj, jsOrStr, hm]

theorem foldl_processPart_enc (now : ℚ) (ps : List LPart)
    (acc : Session × List (Option String)) :
    (ps.map encCamelPart).foldl (processPart now) acc =
      (ps.map encSnakePart).foldl (processPart now) acc := by
  induction ps generalizing acc with
  | nil => rfl
  | cons p ps ih =>
    simp only [List.map_cons, List.foldl_cons]
    rw [processPart_enc]
    exact ih _

/-- C6: decoding the same logical inbound content expressed in either
supported naming convention (camelCase or snake_case) produces identical
results: the same session-state transition (connection flags, speaking
flag, transcript, playback scheduling) and the same audio chunks handed
to playback. -/
theorem C6_decode_convention_invariant (now : ℚ) (s : Session)
    (f : LFrame) :
    onMessage now s (encodeCamel f) = onMessage now s (encodeSnake f) := by
  rcases f with ⟨setup, err, sc⟩
  rcases setup with _ | u
  · rcases err with _ | e
    · rcases sc with _ | ⟨mt, tc⟩
      · rfl
      · rcases mt with _ | ⟨parts⟩
        · simp only [onMessage, encodeCamel, encodeSnake, encCamelSC,
            encSnakeSC, encCamelMT, encSnakeMT, jsOrObj, jsOrBoolTruthy,
            Option.map_some', Option.map_none', Option.some_bind,
            Option.none_bind, Option.getD_some, Option.getD_none,
            Option.isSome_none, Option.isSome_some, Bool.or_false,
            Bool.false_or, Bool.or_self]
        · rcases parts with _ | ps
          · simp only [onMessage, encodeCamel, encodeSnake, encCamelSC,
              encSnakeSC, encCamelMT, encSnakeMT, jsOrObj, jsOrBoolTruthy,
              Option.map_some', Option.map_none', Option.some_bind,
              Option.none_bind, Option.getD_some, Option.getD_none,
              Option.isSome_none, Option.isSome_some, Bool.or_false,
              Bool.false_or, Bool.or_self]
          · simp only [onMessage, encodeCamel, encodeSnake, encCamelSC,
              encSnakeSC, encCamelMT, encSnakeMT, jsOrObj, jsOrBoolTruthy,
              Option.map_some', Option.map_none', Option.some_bind,
              Option.none_bind, Option.getD_some, Option.getD_none,
              Option.isSome_none, Option.isSome_some, Bool.or_false,
              Bool.false_or, Bool.or_self]
            rw [foldl_processPart_enc]
    · rfl
  · rfl

end ChessTutor
